import Mathlib

/-!
Verification of the response-normalization and error-mapping core of the
openfire-restapi client library.

The embedding models decoded JSON bodies as an inductive `Json` type;
Python dictionaries are association lists with first-match lookup (Python
dict keys are unique, so first-match lookup agrees with dict semantics).

Embedded operations:
* `extract_log_entries` — `SecurityAuditLog.extract_log_entries`
  (src/ofrestapi/security.py): resolves the singleton-vs-collection shape
  ambiguity of the security-audit-log envelope.
* `session_shape_resolution` — the shape-resolution step inside
  `Sessions.get_user_session_details` (src/ofrestapi/sessions.py).
* `submit_request` — the response-classification part of
  `Base._submit_request` (src/ofrestapi/base.py): classifies an HTTP
  response into a decoded payload, a bare success signal, a typed API
  exception, or an uncaught Python runtime error.
-/

/-- A decoded JSON value (the body of an HTTP response after `r.json()`).
Numbers are modelled as integers; no claim concerns non-integral numbers. -/
inductive Json where
  | null : Json
  | bool (b : Bool) : Json
  | num (n : Int) : Json
  | str (s : String) : Json
  | arr (xs : List Json) : Json
  | obj (fields : List (String × Json)) : Json
  deriving Repr

/-- A Python dictionary with string keys, as produced by decoding a JSON
object: an association list looked up by first match. -/
abbrev PyDict := List (String × Json)

/-- Python `d[k]` / `k in d` on a dict: first-match association lookup. -/
def dictLookup (k : String) : PyDict → Option Json
  | [] => none
  | p :: rest => if p.1 = k then some p.2 else dictLookup k rest

/-- Python `d.get(k, default)`. -/
def pyDictGet (d : PyDict) (k : String) (dflt : Json) : Json :=
  match dictLookup k d with
  | some v => v
  | none => dflt

/-- `SecurityAuditLog.extract_log_entries` (src/ofrestapi/security.py,
lines 102-130), translated clause by clause.  The input is the decoded
response dictionary (the parameter is annotated `Dict[str, Any]`); the
result is the returned Python value: normally a list (`Json.arr`), but the
`return logs_response["logs"]["log"]` branch returns the raw secondary
value whatever it is.

Python control flow mirrored here:
* `if not logs_response: return []` — empty dict is falsy;
* `if "logs" in logs_response:` then
  * `isinstance(..., list)` → return it;
  * `isinstance(..., dict) and "log" in ...`:
    `isinstance(...["log"], dict)` → wrap in a one-element list,
    otherwise return the value as is;
  * `... is None or ... == []` → `[]` (the `== []` disjunct is dead:
    an empty list was already caught by the `isinstance(..., list)` arm);
* final `return []`. -/
def extract_log_entries (logs_response : PyDict) : Json :=
  if logs_response.isEmpty then Json.arr []
  else
    match dictLookup "logs" logs_response with
    | none => Json.arr []
    | some (Json.arr xs) => Json.arr xs
    | some (Json.obj fields) =>
        match dictLookup "log" fields with
        | some (Json.obj entry) => Json.arr [Json.obj entry]
        | some v => v
        | none => Json.arr []
    | some _ => Json.arr []

/-- The shape-resolution step of `Sessions.get_user_session_details`
(src/ofrestapi/sessions.py, lines 95-113), applied to the already-fetched
response dictionary:

* `if not sessions or "sessions" not in sessions: return []`;
* `isinstance(sessions["sessions"], list)` → return it;
* `isinstance(..., dict) and "session" in ...`:
  dict → wrap in a one-element list, list → return it as is;
* final `return []` (reached in particular when the secondary value is
  neither a dict nor a list — unlike `extract_log_entries`). -/
def session_shape_resolution (sessions : PyDict) : Json :=
  if sessions.isEmpty then Json.arr []
  else
    match dictLookup "sessions" sessions with
    | none => Json.arr []
    | some (Json.arr xs) => Json.arr xs
    | some (Json.obj fields) =>
        match dictLookup "session" fields with
        | some (Json.obj entry) => Json.arr [Json.obj entry]
        | some (Json.arr xs) => Json.arr xs
        | some _ => Json.arr []
        | none => Json.arr []
    | some _ => Json.arr []

example : extract_log_entries [("logs", Json.obj [("log", Json.obj [("logId", Json.num 22)])])]
    = Json.arr [Json.obj [("logId", Json.num 22)]] := rfl

example : extract_log_entries [("logs", Json.arr [Json.num 1, Json.num 2])]
    = Json.arr [Json.num 1, Json.num 2] := rfl

example : extract_log_entries [] = Json.arr [] := rfl

example : extract_log_entries [("logs", Json.null)] = Json.arr [] := rfl

example : extract_log_entries [("logs", Json.obj [("log", Json.str "x")])] = Json.str "x" := rfl

example : session_shape_resolution [("sessions", Json.obj [("session", Json.str "x")])]
    = Json.arr [] := rfl

/-- The typed exceptions of src/ofrestapi/exception.py that
`Base._submit_request` can raise, each carrying the message value it was
constructed with (`OpenfireApiException.__init__` stores it unchanged, so
it is kept as a raw `Json` value). -/
inductive ApiException where
  | IllegalArgumentException (message : Json)
  | UserNotFoundException (message : Json)
  | UserAlreadyExistsException (message : Json)
  | RequestNotAuthorisedException (message : Json)
  | UserServiceDisabledException (message : Json)
  | SharedGroupException (message : Json)
  | InvalidResponseException (message : Json)
  | PropertyNotFoundException (message : Json)
  | GroupAlreadyExistsException (message : Json)
  | GroupNotFoundException (message : Json)
  | RoomNotFoundException (message : Json)
  | NotAllowedException (message : Json)
  | AlreadyExistsException (message : Json)
  deriving Repr

/-- First-match lookup in an association list with string keys (Python
dict access for non-`Json` values). -/
def mapLookup {α : Type} (k : String) : List (String × α) → Option α
  | [] => none
  | p :: rest => if p.1 = k then some p.2 else mapLookup k rest

/-- `EXCEPTIONS_MAP` of src/ofrestapi/base.py, lines 12-25: server error
tag to exception constructor. -/
def EXCEPTIONS_MAP : List (String × (Json → ApiException)) :=
  [("IllegalArgumentException", ApiException.IllegalArgumentException),
   ("UserNotFoundException", ApiException.UserNotFoundException),
   ("UserAlreadyExistsException", ApiException.UserAlreadyExistsException),
   ("RequestNotAuthorised", ApiException.RequestNotAuthorisedException),
   ("UserServiceDisabled", ApiException.UserServiceDisabledException),
   ("SharedGroupException", ApiException.SharedGroupException),
   ("PropertyNotFoundException", ApiException.PropertyNotFoundException),
   ("GroupAlreadyExistsException", ApiException.GroupAlreadyExistsException),
   ("GroupNotFoundException", ApiException.GroupNotFoundException),
   ("RoomNotFoundException", ApiException.RoomNotFoundException),
   ("NotAllowedException", ApiException.NotAllowedException),
   ("AlreadyExistsException", ApiException.AlreadyExistsException)]

/-- Python `exception in EXCEPTIONS_MAP` followed by
`EXCEPTIONS_MAP[exception]`, for a hashable `exception` value: only a
string can equal one of the string keys, so every non-string hashable
value (None, booleans, numbers) misses the table. -/
def exceptionsMapFind (tag : Json) : Option (Json → ApiException) :=
  match tag with
  | Json.str s => mapLookup s EXCEPTIONS_MAP
  | _ => none

/-- Python `str()` of the values that can reach the f-string
`f"Unknown exception: {exception}"` in `_submit_request`.  A list- or
dict-valued tag never reaches that f-string: the membership test
`exception in EXCEPTIONS_MAP` evaluated just before it raises `TypeError`
(unhashable key), so the last two cases are unreachable from
`submit_request` and their value is irrelevant. -/
def pyStr : Json → String
  | Json.null => "None"
  | Json.bool true => "True"
  | Json.bool false => "False"
  | Json.num n => toString n
  | Json.str s => s
  | Json.arr _ => ""
  | Json.obj _ => ""

/-- An HTTP response as `_submit_request` observes it: the status code and
the result of `r.json()` — `some v` when the body decodes as JSON `v`,
`none` when decoding raises `ValueError` (empty or malformed body). -/
structure HttpResponse where
  status_code : Nat
  json : Option Json

/-- A successful return value of `_submit_request`: the decoded JSON body,
or the bare boolean `True` when a 2xx response has no decodable body. -/
inductive SubmitSuccess where
  | payload (v : Json)
  | trueSignal
  deriving Repr

/-- The outcome of `_submit_request`: a returned value, a raised
`OpenfireApiException`, or an uncaught Python runtime error
(`AttributeError` when `.get` is called on a non-dict decoded body,
`TypeError` when an unhashable tag value is used as a dict-membership
key). -/
inductive SubmitOutcome where
  | ok (v : SubmitSuccess)
  | apiError (e : ApiException)
  | pythonError (errName : String)
  deriving Repr

/-- The response-classification logic of `Base._submit_request`
(src/ofrestapi/base.py, lines 76-93), translated branch by branch:

* `r.status_code in (200, 201)`: return `r.json()` if it decodes,
  else (`ValueError`) return `True`;
* otherwise, decode the body: on `ValueError` raise
  `InvalidResponseException(f"Invalid response with status code: ...")`;
* on a decoded dict, take `exception = ....get("exception")` and
  `message = ....get("message", "Unknown error")` (absent keys and JSON
  `null` both give Python `None` for the tag);
  `if exception in EXCEPTIONS_MAP: raise EXCEPTIONS_MAP[exception](message)`
  — a list/dict tag makes this membership test raise `TypeError` —
  `else: raise InvalidResponseException(f"Unknown exception: ...")`;
* a decoded non-dict body (list, string, number, ...) has no `.get`
  method, so the attribute access raises `AttributeError`, which the
  `except ValueError` clause does not catch. -/
def submit_request (r : HttpResponse) : SubmitOutcome :=
  if r.status_code = 200 ∨ r.status_code = 201 then
    match r.json with
    | some v => SubmitOutcome.ok (SubmitSuccess.payload v)
    | none => SubmitOutcome.ok SubmitSuccess.trueSignal
  else
    match r.json with
    | none =>
        SubmitOutcome.apiError (ApiException.InvalidResponseException
          (Json.str ("Invalid response with status code: " ++ toString r.status_code)))
    | some (Json.obj fields) =>
        let exc := pyDictGet fields "exception" Json.null
        let message := pyDictGet fields "message" (Json.str "Unknown error")
        match exc with
        | Json.arr _ => SubmitOutcome.pythonError "TypeError"
        | Json.obj _ => SubmitOutcome.pythonError "TypeError"
        | e =>
            match exceptionsMapFind e with
            | some ctor => SubmitOutcome.apiError (ctor message)
            | none => SubmitOutcome.apiError (ApiException.InvalidResponseException
                (Json.str ("Unknown exception: " ++ pyStr e)))
    | some _ => SubmitOutcome.pythonError "AttributeError"

example : submit_request ⟨200, some (Json.obj [("ok", Json.bool true)])⟩
    = SubmitOutcome.ok (SubmitSuccess.payload (Json.obj [("ok", Json.bool true)])) := rfl

example : submit_request ⟨201, none⟩ = SubmitOutcome.ok SubmitSuccess.trueSignal := rfl

example : submit_request ⟨404, none⟩
    = SubmitOutcome.apiError (ApiException.InvalidResponseException
        (Json.str "Invalid response with status code: 404")) := rfl

example : submit_request ⟨404, some (Json.obj [("exception", Json.str "UserNotFoundException"),
      ("message", Json.str "x")])⟩
    = SubmitOutcome.apiError (ApiException.UserNotFoundException (Json.str "x")) := rfl

example : submit_request ⟨400, some (Json.obj [])⟩
    = SubmitOutcome.apiError (ApiException.InvalidResponseException
        (Json.str "Unknown exception: None")) := rfl

example : submit_request ⟨400, some (Json.obj [("exception", Json.arr [])])⟩
    = SubmitOutcome.pythonError "TypeError" := rfl

example : submit_request ⟨400, some (Json.arr [])⟩
    = SubmitOutcome.pythonError "AttributeError" := rfl

/-- Classifies a `SubmitOutcome` as a raised `InvalidResponseException`
(the invalid-response error kind), used to state what an outcome is not. -/
def isInvalidResponseFailure : SubmitOutcome → Bool
  | SubmitOutcome.apiError (ApiException.InvalidResponseException _) => true
  | _ => false

/-- C8: for every HTTP response with status 200 or 201 whose body decodes
as valid JSON, `_submit_request` returns the decoded value unchanged. -/
theorem submit_ok_json_returned (r : HttpResponse) (v : Json)
    (hstatus : r.status_code = 200 ∨ r.status_code = 201)
    (hbody : r.json = some v) :
    submit_request r = SubmitOutcome.ok (SubmitSuccess.payload v) := by
  unfold submit_request
  rw [if_pos hstatus, hbody]

/-- C8 witness: a 200 response with JSON body `null` is returned as is. -/
theorem submit_ok_json_returned_witness :
    submit_request ⟨200, some Json.null⟩ = SubmitOutcome.ok (SubmitSuccess.payload Json.null) :=
  submit_ok_json_returned ⟨200, some Json.null⟩ Json.null (Or.inl rfl) rfl

/-- C10: for every HTTP response with status 200 or 201 whose body does
not decode as JSON, `_submit_request` returns the boolean success signal
`True` and never raises. -/
theorem submit_ok_nojson_true (r : HttpResponse)
    (hstatus : r.status_code = 200 ∨ r.status_code = 201)
    (hbody : r.json = none) :
    submit_request r = SubmitOutcome.ok SubmitSuccess.trueSignal := by
  unfold submit_request
  rw [if_pos hstatus, hbody]

/-- C10 witness: a 201 response with an undecodable body returns `True`. -/
theorem submit_ok_nojson_true_witness :
    submit_request ⟨201, none⟩ = SubmitOutcome.ok SubmitSuccess.trueSignal :=
  submit_ok_nojson_true ⟨201, none⟩ (Or.inr rfl) rfl

/-- C6: for every HTTP response with a non-2xx status whose body does not
decode as JSON, `_submit_request` raises `InvalidResponseException`
carrying the HTTP status code in its message. -/
theorem submit_undecodable_invalid_response (r : HttpResponse)
    (hstatus : ¬(r.status_code = 200 ∨ r.status_code = 201))
    (hbody : r.json = none) :
    submit_request r = SubmitOutcome.apiError (ApiException.InvalidResponseException
      (Json.str ("Invalid response with status code: " ++ toString r.status_code))) := by
  unfold submit_request
  rw [if_neg hstatus, hbody]

/-- C6 witness: a 404 response with an undecodable body raises
`InvalidResponseException` naming status 404. -/
theorem submit_undecodable_invalid_response_witness :
    submit_request ⟨404, none⟩ = SubmitOutcome.apiError (ApiException.InvalidResponseException
      (Json.str "Invalid response with status code: 404")) :=
  submit_undecodable_invalid_response ⟨404, none⟩ (by decide) rfl

/-- C2: for every HTTP response with a non-2xx status whose body decodes
as a JSON mapping whose `exception` field is a tag in `EXCEPTIONS_MAP`,
`_submit_request` raises exactly the mapped typed exception carrying the
body's `message` field. -/
theorem submit_known_exception_mapped (r : HttpResponse) (fields : PyDict)
    (tag : String) (ctor : Json → ApiException) (msg : Json)
    (hstatus : ¬(r.status_code = 200 ∨ r.status_code = 201))
    (hbody : r.json = some (Json.obj fields))
    (htag : dictLookup "exception" fields = some (Json.str tag))
    (hmap : mapLookup tag EXCEPTIONS_MAP = some ctor)
    (hmsg : dictLookup "message" fields = some msg) :
    submit_request r = SubmitOutcome.apiError (ctor msg) := by
  unfold submit_request
  rw [if_neg hstatus, hbody]
  simp only [pyDictGet, htag, hmsg, exceptionsMapFind, hmap]

/-- C2 witness: a 404 response with body
`{"exception": "UserNotFoundException", "message": "x"}` raises
`UserNotFoundException("x")`. -/
theorem submit_known_exception_mapped_witness :
    submit_request ⟨404, some (Json.obj [("exception", Json.str "UserNotFoundException"),
        ("message", Json.str "x")])⟩
      = SubmitOutcome.apiError (ApiException.UserNotFoundException (Json.str "x")) :=
  submit_known_exception_mapped
    ⟨404, some (Json.obj [("exception", Json.str "UserNotFoundException"),
      ("message", Json.str "x")])⟩
    [("exception", Json.str "UserNotFoundException"), ("message", Json.str "x")]
    "UserNotFoundException" ApiException.UserNotFoundException (Json.str "x")
    (by decide) rfl rfl rfl rfl

/-- A Python-hashable JSON value: anything except a list or a dict.
Only hashable values survive the membership test
`exception in EXCEPTIONS_MAP`; a list or dict operand raises `TypeError`. -/
def tagHashable : Json → Bool
  | Json.arr _ => false
  | Json.obj _ => false
  | _ => true

/-- C7 counterexample: a 400 response whose body is the JSON mapping
`{"exception": []}` decodes as JSON and its `exception` tag is not a key
of `EXCEPTIONS_MAP`, yet `_submit_request` does not fail with the
invalid-response error kind: the membership test
`exception in EXCEPTIONS_MAP` raises an uncaught `TypeError` because a
list is unhashable. -/
theorem submit_unhashable_tag_counterexample :
    submit_request ⟨400, some (Json.obj [("exception", Json.arr [])])⟩
        = SubmitOutcome.pythonError "TypeError" ∧
      isInvalidResponseFailure
        (submit_request ⟨400, some (Json.obj [("exception", Json.arr [])])⟩) = false :=
  ⟨rfl, rfl⟩

/-- C7 amended: for every HTTP response with a non-2xx status whose body
decodes as a JSON mapping whose `exception` tag (its `exception` value,
or `None` when the field is absent or JSON null) is hashable — not a
sequence or a mapping — and is not a key of `EXCEPTIONS_MAP`,
`_submit_request` raises `InvalidResponseException` carrying the string
form of the unrecognized tag. -/
theorem submit_unknown_tag_invalid_response (r : HttpResponse) (fields : PyDict)
    (hstatus : ¬(r.status_code = 200 ∨ r.status_code = 201))
    (hbody : r.json = some (Json.obj fields))
    (hhash : tagHashable (pyDictGet fields "exception" Json.null) = true)
    (hmiss : exceptionsMapFind (pyDictGet fields "exception" Json.null) = none) :
    submit_request r = SubmitOutcome.apiError (ApiException.InvalidResponseException
      (Json.str ("Unknown exception: " ++ pyStr (pyDictGet fields "exception" Json.null)))) := by
  unfold submit_request
  rw [if_neg hstatus, hbody]
  rcases hexc : pyDictGet fields "exception" Json.null with _ | b | n | s | xs | gs <;>
    rw [hexc] at hhash hmiss <;>
    simp only [hexc, hmiss, tagHashable] at hhash ⊢ <;>
    first
      | rfl
      | exact absurd hhash (by simp)

/-- C7 amended witness: a 400 response with an empty JSON-mapping body has
tag `None`, which is not in the table, and raises
`InvalidResponseException("Unknown exception: None")`. -/
theorem submit_unknown_tag_invalid_response_witness :
    submit_request ⟨400, some (Json.obj [])⟩
      = SubmitOutcome.apiError (ApiException.InvalidResponseException
        (Json.str "Unknown exception: None")) :=
  submit_unknown_tag_invalid_response ⟨400, some (Json.obj [])⟩ [] (by decide) rfl rfl rfl

/-- A successful lookup means the dictionary is not empty. -/
theorem dictLookup_ne_nil {k : String} {d : PyDict} {v : Json}
    (h : dictLookup k d = some v) : d.isEmpty = false := by
  cases d with
  | nil => exact absurd h (by simp [dictLookup])
  | cons p rest => rfl

/-- C1: for every envelope whose outer key `logs` holds a mapping whose
secondary key `log` holds a single mapping, `extract_log_entries` returns
a one-element list containing that mapping unchanged. -/
theorem extract_single_mapping_wrapped (d fields entry : PyDict)
    (houter : dictLookup "logs" d = some (Json.obj fields))
    (hsec : dictLookup "log" fields = some (Json.obj entry)) :
    extract_log_entries d = Json.arr [Json.obj entry] := by
  unfold extract_log_entries
  rw [dictLookup_ne_nil houter]
  simp only [Bool.false_eq_true, if_false, houter, hsec]

/-- C1 witness: the single-entry security-log envelope
`{"logs": {"log": {"logId": 22}}}` yields `[{"logId": 22}]`. -/
theorem extract_single_mapping_wrapped_witness :
    extract_log_entries [("logs", Json.obj [("log", Json.obj [("logId", Json.num 22)])])]
      = Json.arr [Json.obj [("logId", Json.num 22)]] :=
  extract_single_mapping_wrapped
    [("logs", Json.obj [("log", Json.obj [("logId", Json.num 22)])])]
    [("log", Json.obj [("logId", Json.num 22)])] [("logId", Json.num 22)] rfl rfl

/-- C4: for every envelope where the outer key `logs` is absent, or holds
`null`, or holds an empty sequence, `extract_log_entries` returns the
empty list. -/
theorem extract_missing_or_empty (d : PyDict)
    (h : dictLookup "logs" d = none ∨ dictLookup "logs" d = some Json.null ∨
      dictLookup "logs" d = some (Json.arr [])) :
    extract_log_entries d = Json.arr [] := by
  unfold extract_log_entries
  cases hde : d.isEmpty with
  | true => rfl
  | false =>
      simp only [hde, Bool.false_eq_true, if_false]
      rcases h with h | h | h <;> rw [h]

/-- C4 witness: the key `logs` is absent from `{"other": null}`, and the
envelopes `{"logs": null}` and `{"logs": []}` hold null and an empty
sequence; all three normalize to the empty list. -/
theorem extract_missing_or_empty_witness :
    extract_log_entries [("other", Json.null)] = Json.arr [] ∧
      extract_log_entries [("logs", Json.null)] = Json.arr [] ∧
      extract_log_entries [("logs", Json.arr [])] = Json.arr [] :=
  ⟨extract_missing_or_empty [("other", Json.null)] (Or.inl rfl),
   extract_missing_or_empty [("logs", Json.null)] (Or.inr (Or.inl rfl)),
   extract_missing_or_empty [("logs", Json.arr [])] (Or.inr (Or.inr rfl))⟩

/-- C5: for every envelope whose outer key `logs` holds a sequence,
`extract_log_entries` returns that sequence unchanged. -/
theorem extract_sequence_identity (d : PyDict) (xs : List Json)
    (h : dictLookup "logs" d = some (Json.arr xs)) :
    extract_log_entries d = Json.arr xs := by
  unfold extract_log_entries
  rw [dictLookup_ne_nil h]
  simp only [Bool.false_eq_true, if_false, h]

/-- C5 witness: a two-element sequence directly under `logs` is returned
as is. -/
theorem extract_sequence_identity_witness :
    extract_log_entries [("logs", Json.arr [Json.num 1, Json.num 2])]
      = Json.arr [Json.num 1, Json.num 2] :=
  extract_sequence_identity [("logs", Json.arr [Json.num 1, Json.num 2])]
    [Json.num 1, Json.num 2] rfl

/-- C3 counterexample: on the envelope `{"logs": {"log": "x"}}` — whose
secondary value is neither a mapping nor a sequence — the code executes
`return logs_response["logs"]["log"]` and yields the bare string `"x"`,
not the empty list. -/
theorem extract_scalar_secondary_counterexample :
    extract_log_entries [("logs", Json.obj [("log", Json.str "x")])] = Json.str "x" ∧
      Json.str "x" ≠ Json.arr [] :=
  ⟨rfl, fun h => Json.noConfusion h⟩

/-- Missing or malformed envelope shape, excluding the scalar-secondary
case: the outer key `logs` is absent, or its value is neither a sequence
nor a mapping that contains the secondary key `log`. -/
def malformedShape (d : PyDict) : Bool :=
  match dictLookup "logs" d with
  | none => true
  | some (Json.arr _) => false
  | some (Json.obj fields) => (dictLookup "log" fields).isNone
  | some _ => true

/-- C3 amended: `extract_log_entries` is a total function of the decoded
envelope dictionary (it never raises on dict input), and on every missing
or malformed shape it returns the empty list — except that when the
secondary value under `logs.log` is neither a mapping nor a sequence it
returns that value unchanged instead of the empty list. -/
theorem extract_malformed_shape_empty (d : PyDict)
    (h : malformedShape d = true) : extract_log_entries d = Json.arr [] := by
  unfold extract_log_entries
  unfold malformedShape at h
  cases hde : d.isEmpty with
  | true => rfl
  | false =>
      simp only [hde, Bool.false_eq_true, if_false]
      rcases hd : dictLookup "logs" d with _ | v
      · simp only [hd]
      · rw [hd] at h
        rcases v with _ | b | n | s | xs | fields
        · simp only [hd]
        · simp only [hd]
        · simp only [hd]
        · simp only [hd]
        · exact absurd h (by simp)
        · rcases hsec : dictLookup "log" fields with _ | w
          · simp only [hd, hsec]
          · simp [hsec] at h

/-- C3 amended witness: the malformed envelope `{"logs": 5}` (outer value
neither a sequence nor a mapping) normalizes to the empty list. -/
theorem extract_malformed_shape_empty_witness :
    extract_log_entries [("logs", Json.num 5)] = Json.arr [] :=
  extract_malformed_shape_empty [("logs", Json.num 5)] rfl

/-- Rename a secondary key inside a nested envelope value: in a mapping,
the inner key `innerOld` becomes `innerNew`; any other value is
unchanged. -/
def renameInner (innerOld innerNew : String) : Json → Json
  | Json.obj fields => Json.obj (fields.map (fun q => (if q.1 = innerOld then innerNew else q.1, q.2)))
  | v => v

/-- Rename an envelope from one resource category's key names to
another's: the outer key `outerOld` becomes `outerNew` and, inside its
value, the secondary key `innerOld` becomes `innerNew`.  All other keys
and every value are untouched, so the result is the same envelope up to
the container/secondary key names. -/
def renameEnvelope (outerOld outerNew innerOld innerNew : String) (d : PyDict) : PyDict :=
  d.map (fun p => if p.1 = outerOld then (outerNew, renameInner innerOld innerNew p.2) else p)

/-- The security envelope already uses the sessions outer key name, so
renaming would collide with it. -/
def outerKeyClash (d : PyDict) : Bool :=
  d.any (fun p => p.1 == "sessions")

/-- The security envelope's nested mapping already uses the sessions
secondary key name, so renaming would collide with it. -/
def innerKeyClash (d : PyDict) : Bool :=
  match dictLookup "logs" d with
  | some (Json.obj fields) => fields.any (fun q => q.1 == "session")
  | _ => false

/-- The secondary value under `logs.log` is neither a mapping nor a
sequence: the one shape on which the two normalizers disagree. -/
def scalarSecondary (d : PyDict) : Bool :=
  match dictLookup "logs" d with
  | some (Json.obj fields) =>
      match dictLookup "log" fields with
      | some (Json.arr _) => false
      | some (Json.obj _) => false
      | some _ => true
      | none => false
  | _ => false

/-- Unfolding step of `renameEnvelope` on a nonempty dictionary. -/
theorem renameEnvelope_cons (o n i m : String) (p : String × Json) (rest : PyDict) :
    renameEnvelope o n i m (p :: rest)
      = (if p.1 = o then (n, renameInner i m p.2) else p) :: renameEnvelope o n i m rest := rfl

/-- Renaming keys preserves emptiness. -/
theorem renameEnvelope_isEmpty (o n i m : String) (d : PyDict) :
    (renameEnvelope o n i m d).isEmpty = d.isEmpty := by
  cases d <;> rfl

/-- Looking the new outer key up in a renamed envelope finds exactly the
renamed value of the old outer key, provided no key of the envelope was
already named `n`. -/
theorem dictLookup_renameEnvelope (o n i m : String) (d : PyDict)
    (h : ∀ p ∈ d, ¬p.1 = n) :
    dictLookup n (renameEnvelope o n i m d)
      = (dictLookup o d).map (renameInner i m) := by
  induction d with
  | nil => rfl
  | cons p rest ih =>
      have hp : ¬p.1 = n := h p (List.mem_cons_self p rest)
      have hrest : ∀ q ∈ rest, ¬q.1 = n := fun q hq => h q (List.mem_cons_of_mem p hq)
      rw [renameEnvelope_cons]
      by_cases hpo : p.1 = o
      · rw [if_pos hpo]
        simp [dictLookup, hpo]
      · rw [if_neg hpo]
        simp only [dictLookup, if_neg hp, if_neg hpo]
        exact ih hrest

/-- Looking the new secondary key up in a key-renamed mapping finds
exactly what the old secondary key held, provided no key of the mapping
was already named `m`. -/
theorem dictLookup_renameInnerFields (i m : String) (fields : PyDict)
    (h : ∀ q ∈ fields, ¬q.1 = m) :
    dictLookup m (fields.map (fun q => (if q.1 = i then m else q.1, q.2)))
      = dictLookup i fields := by
  induction fields with
  | nil => rfl
  | cons q rest ih =>
      have hq : ¬q.1 = m := h q (List.mem_cons_self q rest)
      have hrest : ∀ x ∈ rest, ¬x.1 = m := fun x hx => h x (List.mem_cons_of_mem q hx)
      rw [List.map_cons]
      by_cases hqi : q.1 = i
      · simp [dictLookup, hqi]
      · simp only [dictLookup, if_neg hqi, if_neg hq]
        exact ih hrest

/-- C9 counterexample: the session envelope
`{"sessions": {"session": "x"}}` is exactly the security envelope
`{"logs": {"log": "x"}}` with the container and secondary keys renamed,
yet the security normalizer returns the bare string `"x"` while the
session normalizer returns the empty list. -/
theorem normalizers_disagree_counterexample :
    renameEnvelope "logs" "sessions" "log" "session"
        [("logs", Json.obj [("log", Json.str "x")])]
        = [("sessions", Json.obj [("session", Json.str "x")])] ∧
      extract_log_entries [("logs", Json.obj [("log", Json.str "x")])] = Json.str "x" ∧
      session_shape_resolution [("sessions", Json.obj [("session", Json.str "x")])]
        = Json.arr [] ∧
      Json.str "x" ≠ Json.arr [] :=
  ⟨rfl, rfl, rfl, fun h => Json.noConfusion h⟩

/-- C9 amended: the security-log normalizer and the session-list
normalizer compute the same function up to renaming of the container and
secondary key names on every envelope whose secondary value, when
present, is a mapping or a sequence; on a secondary value that is neither
(the `scalarSecondary` envelopes) the two differ — the security
normalizer returns the value unchanged while the session normalizer
returns the empty list.  The two clash conditions say the renaming is
capture-free, i.e. the two envelopes really are identical up to the key
names. -/
theorem normalizers_agree_up_to_renaming (d : PyDict)
    (houter : outerKeyClash d = false)
    (hinner : innerKeyClash d = false)
    (hscalar : scalarSecondary d = false) :
    session_shape_resolution (renameEnvelope "logs" "sessions" "log" "session" d)
      = extract_log_entries d := by
  have houterAll : ∀ p ∈ d, ¬p.1 = "sessions" := by
    intro p hp hcon
    have hany : d.any (fun q => q.1 == "sessions") = true :=
      List.any_eq_true.mpr ⟨p, hp, by simp [hcon]⟩
    unfold outerKeyClash at houter
    rw [hany] at houter
    exact Bool.noConfusion houter
  unfold session_shape_resolution extract_log_entries
  rw [renameEnvelope_isEmpty]
  cases hde : d.isEmpty with
  | true => rfl
  | false =>
      simp only [Bool.false_eq_true, if_false]
      have hLk := dictLookup_renameEnvelope "logs" "sessions" "log" "session" d houterAll
      rcases hd : dictLookup "logs" d with _ | v
      · rw [hd] at hLk
        simp only [Option.map_none'] at hLk
        simp only [hLk]
      · rw [hd] at hLk
        simp only [Option.map_some'] at hLk
        rcases v with _ | b | n | s | xs | fields
        · simp only [hLk, renameInner, hd]
        · simp only [hLk, renameInner, hd]
        · simp only [hLk, renameInner, hd]
        · simp only [hLk, renameInner, hd]
        · simp only [hLk, renameInner, hd]
        · simp only [renameInner] at hLk
          have hinnerAll : ∀ q ∈ fields, ¬q.1 = "session" := by
            intro q hq hcon
            have hany : fields.any (fun x => x.1 == "session") = true :=
              List.any_eq_true.mpr ⟨q, hq, by simp [hcon]⟩
            unfold innerKeyClash at hinner
            rw [hd] at hinner
            simp only [hany] at hinner
            exact Bool.noConfusion hinner
          simp only [hLk, hd]
          rw [dictLookup_renameInnerFields "log" "session" fields hinnerAll]
          rcases hsec : dictLookup "log" fields with _ | w
          · rfl
          · unfold scalarSecondary at hscalar
            rw [hd] at hscalar
            simp only [hsec] at hscalar
            rcases w with _ | b2 | n2 | s2 | xs2 | entry
            · exact Bool.noConfusion hscalar
            · exact Bool.noConfusion hscalar
            · exact Bool.noConfusion hscalar
            · exact Bool.noConfusion hscalar
            · rfl
            · rfl

/-- C9 amended witness: on the single-entry envelope
`{"logs": {"log": {"logId": 22}}}`, whose renaming is
`{"sessions": {"session": {"logId": 22}}}`, both normalizers return the
same one-element list. -/
theorem normalizers_agree_up_to_renaming_witness :
    session_shape_resolution (renameEnvelope "logs" "sessions" "log" "session"
        [("logs", Json.obj [("log", Json.obj [("logId", Json.num 22)])])])
      = extract_log_entries [("logs", Json.obj [("log", Json.obj [("logId", Json.num 22)])])] :=
  normalizers_agree_up_to_renaming
    [("logs", Json.obj [("log", Json.obj [("logId", Json.num 22)])])] rfl rfl rfl
